import Mathlib

/-!
Shallow embedding of `src/src/pages/Course.tsx` (the Course page of the
mindmesh frontend).  The page's React `useState` fields become the fields of
`PageState`; each event handler becomes a pure function `PageState → PageState`.
Observable external effects are logged inside the state: notifications in
`toasts` (the `toast(...)` calls) and issued remote queries in `queries`
(the supabase query-builder call).  The remote response is passed to
`handleDifficultySelection` as an explicit `QueryResult` oracle argument,
mirroring the awaited `{ data, error }` shape.
-/

namespace Course

/-- A notification, as passed to the toast surface: title, description and an
optional variant (the handlers pass `"destructive"` or omit it). -/
structure Toast where
  title : String
  description : String
  variant : Option String
deriving Repr, DecidableEq

/-- The `CourseType` interface of the page: a course record returned by the
remote query. -/
structure CourseType where
  id : String
  title : String
  description : String
  difficulty_level : String
  is_free : Bool
  video_id : Option String
  thumbnail_url : Option String
deriving Repr, DecidableEq

/-- The `PythonSection` interface: one curriculum section with an integer id,
title, description and completion flag. -/
structure PythonSection where
  id : Int
  title : String
  description : String
  isCompleted : Bool
deriving Repr, DecidableEq

/-- The static `pythonSections` catalog: four sections, ids 1..4, all
incomplete. -/
def pythonSections : List PythonSection :=
  [ { id := 1,
      title := "Introduction to Python",
      description := "Learn the basics of Python programming language and its ecosystem.",
      isCompleted := false },
    { id := 2,
      title := "Basics of Python",
      description := "Master fundamental concepts like variables, data types, and control structures.",
      isCompleted := false },
    { id := 3,
      title := "OOP Concepts in Python",
      description := "Understand object-oriented programming principles in Python.",
      isCompleted := false },
    { id := 4,
      title := "Advanced Concepts in Python",
      description := "Explore advanced topics like decorators, generators, and metaclasses.",
      isCompleted := false } ]

/-- One issued remote query, recording the supabase call
`from(table).select(*).eq(is_free, selectedType).eq(difficulty_level, d).order(orderColumn, ascending)`.
`is_free` is an `Option Bool` because `selectedType` is `boolean | null` in the
source. -/
structure QueryCall where
  table : String
  is_free : Option Bool
  difficulty_level : String
  orderColumn : String
  ascending : Bool
deriving Repr, DecidableEq

/-- The awaited result of the supabase call: either an error, or a `data`
payload that may be null (`Option`) or a list of course records. -/
inductive QueryResult where
  | err : QueryResult
  | ok : Option (List CourseType) → QueryResult
deriving Repr, DecidableEq

/-- The page's `useState` fields, plus the two effect logs (`toasts`,
`queries`). -/
structure PageState where
  searchTopic : String
  showTypeDialog : Bool
  showDifficultyDialog : Bool
  selectedType : Option Bool
  selectedDifficulty : String
  courses : List CourseType
  selectedVideo : String
  showQuiz : Bool
  showPythonModal : Bool
  sections : List PythonSection
  toasts : List Toast
  queries : List QueryCall
deriving Repr, DecidableEq

/-- The state at page load: all the `useState` initial values. -/
def initialState : PageState :=
  { searchTopic := ""
    showTypeDialog := false
    showDifficultyDialog := false
    selectedType := none
    selectedDifficulty := ""
    courses := []
    selectedVideo := ""
    showQuiz := false
    showPythonModal := false
    sections := pythonSections
    toasts := []
    queries := [] }

/-- JS `String.prototype.toLowerCase()` on the ASCII strings this page uses:
lower-case every character.  (Agrees with `String.toLower`; written over the
character list so that it reduces in the kernel.) -/
def jsToLower (s : String) : String :=
  ⟨s.data.map Char.toLower⟩

/-- JS `String.prototype.trim()`: drop leading and trailing whitespace.
(Written over the character list so that it reduces in the kernel.) -/
def jsTrim (s : String) : String :=
  ⟨((s.data.dropWhile Char.isWhitespace).reverse.dropWhile Char.isWhitespace).reverse⟩

/-- The error toast emitted by `handleSearch` for a blank topic. -/
def searchErrorToast : Toast :=
  { title := "Error"
    description := "Please enter a topic to search"
    variant := some "destructive" }

/-- The toast emitted when the query resolves with no records. -/
def noCoursesToast : Toast :=
  { title := "No courses found"
    description := "Try different search criteria"
    variant := some "destructive" }

/-- The toast emitted when the query throws. -/
def fetchErrorToast : Toast :=
  { title := "Error"
    description := "Failed to fetch courses"
    variant := some "destructive" }

/-- The toast emitted by `handleSectionComplete`. -/
def quizCompletedToast : Toast :=
  { title := "Quiz Completed"
    description := "You\x27ve completed this section\x27s quiz!"
    variant := none }

/-- `handleSearch`: if `searchTopic.trim()` is falsy (empty), toast an error
and return; otherwise open the type dialog. -/
def handleSearch (s : PageState) : PageState :=
  if jsTrim s.searchTopic = "" then
    { s with toasts := s.toasts ++ [searchErrorToast] }
  else
    { s with showTypeDialog := true }

/-- `handleTypeSelection(isFree)`: record the tier, close the type dialog,
open the difficulty dialog. -/
def handleTypeSelection (isFree : Bool) (s : PageState) : PageState :=
  { s with
      selectedType := some isFree
      showTypeDialog := false
      showDifficultyDialog := true }

/-- `handleDifficultySelection(difficulty)`.  The diversion branch
(topic lower-cases to "python" and difficulty is exactly "Beginner") opens the
Python modal and returns — it touches nothing else.  Otherwise the difficulty
is recorded, the dialog closed, and the supabase query issued; `resp` is the
awaited `{ data, error }`.  On error the catch block toasts a fetch failure.
On success `setCourses(data || [])` runs, and `!data?.length` (data null or
empty) additionally toasts "No courses found". -/
def handleDifficultySelection (difficulty : String) (resp : QueryResult)
    (s : PageState) : PageState :=
  if jsToLower s.searchTopic = "python" ∧ difficulty = "Beginner" then
    { s with showPythonModal := true }
  else
    let s1 := { s with
      selectedDifficulty := difficulty
      showDifficultyDialog := false
      queries := s.queries ++ [({ table := "courses"
                                  is_free := s.selectedType
                                  difficulty_level := jsToLower difficulty
                                  orderColumn := "created_at"
                                  ascending := false } : QueryCall)] }
    match resp with
    | QueryResult.err => { s1 with toasts := s1.toasts ++ [fetchErrorToast] }
    | QueryResult.ok data =>
      let s2 := { s1 with courses := data.getD [] }
      if (data.getD []).isEmpty then
        { s2 with toasts := s2.toasts ++ [noCoursesToast] }
      else s2

/-- `handleSectionComplete(sectionId)`: map over the sections, setting
`isCompleted` on the matching id, and toast "Quiz Completed" (the toast is
outside the setter, hence unconditional). -/
def handleSectionComplete (sectionId : Int) (s : PageState) : PageState :=
  { s with
      sections := s.sections.map (fun sec =>
        if sec.id = sectionId then { sec with isCompleted := true } else sec)
      toasts := s.toasts ++ [quizCompletedToast] }

/-- `handleVideoComplete`: show the quiz and clear the selected video. -/
def handleVideoComplete (s : PageState) : PageState :=
  { s with showQuiz := true, selectedVideo := "" }

/-- The quiz dialog's `onRetry` prop: `setSelectedVideo(selectedVideo)`. -/
def quizRetry (s : PageState) : PageState :=
  { s with selectedVideo := s.selectedVideo }

/-- The quiz dialog's `onClose` prop: `setShowQuiz(false)`. -/
def quizClose (s : PageState) : PageState :=
  { s with showQuiz := false }

/-- The video dialog's `onClose` prop: `setSelectedVideo("")`. -/
def videoClose (s : PageState) : PageState :=
  { s with selectedVideo := "" }

/-- A course card's `onVideoSelect` prop: `setSelectedVideo(v)`. -/
def videoSelect (v : String) (s : PageState) : PageState :=
  { s with selectedVideo := v }

/-- The search input's `onChange`: `setSearchTopic(t)`. -/
def setSearchTopic (t : String) (s : PageState) : PageState :=
  { s with searchTopic := t }

/-- The type dialog's `onOpenChange` prop: `setShowTypeDialog(b)`. -/
def setShowTypeDialog (b : Bool) (s : PageState) : PageState :=
  { s with showTypeDialog := b }

/-- The difficulty dialog's `onOpenChange` prop. -/
def setShowDifficultyDialog (b : Bool) (s : PageState) : PageState :=
  { s with showDifficultyDialog := b }

/-- The Python modal's `onOpenChange` prop. -/
def setShowPythonModal (b : Bool) (s : PageState) : PageState :=
  { s with showPythonModal := b }

/-- The video dialog's `isOpen` prop is derived: `!!selectedVideo`. -/
def videoIsOpen (s : PageState) : Bool :=
  s.selectedVideo != ""

/-- Every user-triggered operation of the page: the five handlers plus the
inline setter callbacks wired into the JSX. -/
inductive Action where
  | search : Action
  | typeClick : Bool → Action
  | diffClick : String → QueryResult → Action
  | sectionComplete : Int → Action
  | videoComplete : Action
  | quizRetryClick : Action
  | quizCloseClick : Action
  | videoCloseClick : Action
  | videoSelectClick : String → Action
  | topicInput : String → Action
  | typeDialogChange : Bool → Action
  | diffDialogChange : Bool → Action
  | pythonModalChange : Bool → Action
deriving Repr, DecidableEq

/-- Dispatch an action to its handler. -/
def step (a : Action) (s : PageState) : PageState :=
  match a with
  | Action.search => handleSearch s
  | Action.typeClick b => handleTypeSelection b s
  | Action.diffClick d r => handleDifficultySelection d r s
  | Action.sectionComplete i => handleSectionComplete i s
  | Action.videoComplete => handleVideoComplete s
  | Action.quizRetryClick => quizRetry s
  | Action.quizCloseClick => quizClose s
  | Action.videoCloseClick => videoClose s
  | Action.videoSelectClick v => videoSelect v s
  | Action.topicInput t => setSearchTopic t s
  | Action.typeDialogChange b => setShowTypeDialog b s
  | Action.diffDialogChange b => setShowDifficultyDialog b s
  | Action.pythonModalChange b => setShowPythonModal b s

/-- Run a list of actions from the page-load state. -/
def run (acts : List Action) : PageState :=
  acts.foldl (fun s a => step a s) initialState

/-- No modal dialog of the page is open (the dialogs are modal, so the search
input and button are only interactable in such a state). -/
def noDialogOpen (s : PageState) : Prop :=
  s.showTypeDialog = false ∧ s.showDifficultyDialog = false ∧
    s.showPythonModal = false

instance (s : PageState) : Decidable (noDialogOpen s) := by
  unfold noDialogOpen; infer_instance

/-- States reachable from Idle (page load) by the wizard's user actions:
typing a topic or submitting the search (available when no modal dialog
blocks the page), clicking a type button (rendered inside the open type
dialog), and clicking a difficulty button (rendered inside the open
difficulty dialog). -/
inductive WizardReachable : PageState → Prop where
  | init : WizardReachable initialState
  | topic (s : PageState) (t : String) :
      WizardReachable s → noDialogOpen s → WizardReachable (setSearchTopic t s)
  | search (s : PageState) :
      WizardReachable s → noDialogOpen s → WizardReachable (handleSearch s)
  | typeClick (s : PageState) (b : Bool) :
      WizardReachable s → s.showTypeDialog = true →
      WizardReachable (handleTypeSelection b s)
  | diffClick (s : PageState) (d : String) (r : QueryResult) :
      WizardReachable s → s.showDifficultyDialog = true →
      WizardReachable (handleDifficultySelection d r s)

/-- A concrete wizard state: topic recorded as "PyThOn", a tier chosen, the
difficulty dialog open. -/
def pythonWizardState : PageState :=
  { initialState with
      searchTopic := "PyThOn"
      selectedType := some true
      showDifficultyDialog := true }

/-- C1: when the recorded topic lower-cases to "python" and the difficulty
argument is exactly "Beginner", `handleDifficultySelection` opens the embedded
curriculum modal, issues no query, and leaves the recorded difficulty value
unchanged. -/
theorem C1_diversion (s : PageState) (r : QueryResult)
    (htopic : jsToLower s.searchTopic = "python") :
    (handleDifficultySelection "Beginner" r s).showPythonModal = true
    ∧ (handleDifficultySelection "Beginner" r s).queries = s.queries
    ∧ (handleDifficultySelection "Beginner" r s).selectedDifficulty
        = s.selectedDifficulty := by
  unfold handleDifficultySelection
  rw [if_pos ⟨htopic, rfl⟩]
  exact ⟨rfl, rfl, rfl⟩

/-- Witness for C1 at the concrete state with topic "PyThOn". -/
theorem C1_diversion_witness :
    (handleDifficultySelection "Beginner" QueryResult.err pythonWizardState).showPythonModal = true
    ∧ (handleDifficultySelection "Beginner" QueryResult.err pythonWizardState).queries
        = pythonWizardState.queries
    ∧ (handleDifficultySelection "Beginner" QueryResult.err pythonWizardState).selectedDifficulty
        = pythonWizardState.selectedDifficulty :=
  C1_diversion pythonWizardState QueryResult.err (by decide)

/-- C3: `handleSearch` on a blank (empty or whitespace-only) topic only
appends one error toast; on a non-blank topic it only opens the type dialog
and emits no notification. -/
theorem C3_search (s : PageState) :
    (jsTrim s.searchTopic = "" →
      handleSearch s = { s with toasts := s.toasts ++ [searchErrorToast] })
    ∧ (jsTrim s.searchTopic ≠ "" →
      handleSearch s = { s with showTypeDialog := true }) := by
  constructor
  · intro h
    unfold handleSearch
    rw [if_pos h]
  · intro h
    unfold handleSearch
    rw [if_neg h]

/-- Witness for C3 at the whitespace-only topic "  " and the topic "AI". -/
theorem C3_search_witness :
    handleSearch { initialState with searchTopic := "  " }
      = { { initialState with searchTopic := "  " } with
            toasts := initialState.toasts ++ [searchErrorToast] }
    ∧ handleSearch { initialState with searchTopic := "AI" }
      = { { initialState with searchTopic := "AI" } with showTypeDialog := true } :=
  ⟨(C3_search { initialState with searchTopic := "  " }).1 (by decide),
   (C3_search { initialState with searchTopic := "AI" }).2 (by decide)⟩

/-- C9: the quiz dialog's retry callback writes the currently selected video
back into the selected-video slot, so it is the identity on the state; the
video dialog's open flag is derived as "selected video non-empty"; and after
`handleVideoComplete` cleared the slot, retry leaves it empty. -/
theorem C9_quizRetry (s : PageState) :
    quizRetry s = s
    ∧ (quizRetry s).selectedVideo = s.selectedVideo
    ∧ (videoIsOpen (quizRetry s) = true ↔ (quizRetry s).selectedVideo ≠ "")
    ∧ (quizRetry (handleVideoComplete s)).selectedVideo = "" := by
  refine ⟨rfl, rfl, ?_, rfl⟩
  simp [videoIsOpen, quizRetry, bne_iff_ne]

/-- C10: on a non-blank topic, `handleSearch` changes only the type-dialog
flag; results, tier, difficulty, video, quiz flag, sections and toasts are
untouched. -/
theorem C10_search_frame (s : PageState) (h : jsTrim s.searchTopic ≠ "") :
    handleSearch s = { s with showTypeDialog := true }
    ∧ (handleSearch s).courses = s.courses
    ∧ (handleSearch s).selectedType = s.selectedType
    ∧ (handleSearch s).selectedDifficulty = s.selectedDifficulty
    ∧ (handleSearch s).selectedVideo = s.selectedVideo
    ∧ (handleSearch s).showQuiz = s.showQuiz
    ∧ (handleSearch s).sections = s.sections
    ∧ (handleSearch s).toasts = s.toasts := by
  unfold handleSearch
  rw [if_neg h]
  exact ⟨rfl, rfl, rfl, rfl, rfl, rfl, rfl, rfl⟩

/-- Witness for C10 at a state carrying stale results and selections. -/
theorem C10_search_frame_witness :
    handleSearch { pythonWizardState with searchTopic := "Web Development" }
      = { { pythonWizardState with searchTopic := "Web Development" } with
            showTypeDialog := true }
    ∧ (handleSearch { pythonWizardState with searchTopic := "Web Development" }).courses
        = pythonWizardState.courses :=
  ⟨(C10_search_frame { pythonWizardState with searchTopic := "Web Development" }
      (by decide)).1,
   (C10_search_frame { pythonWizardState with searchTopic := "Web Development" }
      (by decide)).2.1⟩

/-- A concrete course record for witnesses. -/
def sampleCourse : CourseType :=
  { id := "c1"
    title := "Expert AI"
    description := "An expert AI course."
    difficulty_level := "expert"
    is_free := true
    video_id := some "vid1"
    thumbnail_url := none }

/-- C2: outside the diversion case, `handleDifficultySelection` issues exactly
one query — equality filters `is_free` = the recorded tier and
`difficulty_level` = the lower-cased difficulty, ordered by `created_at`
descending — and on success replaces the results list with the response data
(the empty list when the data payload is null). -/
theorem C2_query (s : PageState) (difficulty : String) (r : QueryResult)
    (tier : Bool)
    (hdiv : ¬(jsToLower s.searchTopic = "python" ∧ difficulty = "Beginner"))
    (htier : s.selectedType = some tier) :
    (handleDifficultySelection difficulty r s).queries
      = s.queries ++ [({ table := "courses"
                         is_free := some tier
                         difficulty_level := jsToLower difficulty
                         orderColumn := "created_at"
                         ascending := false } : QueryCall)]
    ∧ ∀ data : Option (List CourseType), r = QueryResult.ok data →
        (handleDifficultySelection difficulty r s).courses = data.getD [] := by
  cases r with
  | err =>
    simp only [handleDifficultySelection]
    rw [if_neg hdiv]
    refine ⟨by rw [← htier], ?_⟩
    intro data hdata
    exact absurd hdata (by simp)
  | ok data =>
    simp only [handleDifficultySelection]
    rw [if_neg hdiv]
    refine ⟨?_, ?_⟩
    · rw [← htier]
      split <;> rfl
    · intro d hd
      injection hd with hdd
      subst hdd
      split <;> rfl

/-- Witness for C2: topic "AI", difficulty "Expert", tier free, one record
returned. -/
theorem C2_query_witness :
    (handleDifficultySelection "Expert" (QueryResult.ok (some [sampleCourse]))
        { pythonWizardState with searchTopic := "AI" }).queries
      = { pythonWizardState with searchTopic := "AI" }.queries
          ++ [({ table := "courses"
                 is_free := some true
                 difficulty_level := jsToLower "Expert"
                 orderColumn := "created_at"
                 ascending := false } : QueryCall)]
    ∧ ∀ data : Option (List CourseType),
        QueryResult.ok (some [sampleCourse]) = QueryResult.ok data →
        (handleDifficultySelection "Expert" (QueryResult.ok (some [sampleCourse]))
            { pythonWizardState with searchTopic := "AI" }).courses = data.getD [] :=
  C2_query { pythonWizardState with searchTopic := "AI" } "Expert"
    (QueryResult.ok (some [sampleCourse])) true (by decide) rfl

/-- C4: outside the diversion case, a failing query leaves the results list at
its prior value, appends exactly one failure toast, and appends exactly one
query (no retry); the handler returns a state rather than propagating the
error. -/
theorem C4_queryFailure (s : PageState) (difficulty : String)
    (hdiv : ¬(jsToLower s.searchTopic = "python" ∧ difficulty = "Beginner")) :
    (handleDifficultySelection difficulty QueryResult.err s).courses = s.courses
    ∧ (handleDifficultySelection difficulty QueryResult.err s).toasts
        = s.toasts ++ [fetchErrorToast]
    ∧ (handleDifficultySelection difficulty QueryResult.err s).queries.length
        = s.queries.length + 1 := by
  unfold handleDifficultySelection
  rw [if_neg hdiv]
  exact ⟨rfl, rfl, by simp⟩

/-- Witness for C4: a failing query for topic "AI", difficulty "Hard", with a
non-empty prior results list. -/
theorem C4_queryFailure_witness :
    (handleDifficultySelection "Hard" QueryResult.err
        { pythonWizardState with searchTopic := "AI", courses := [sampleCourse] }).courses
      = { pythonWizardState with searchTopic := "AI", courses := [sampleCourse] }.courses
    ∧ (handleDifficultySelection "Hard" QueryResult.err
        { pythonWizardState with searchTopic := "AI", courses := [sampleCourse] }).toasts
      = { pythonWizardState with searchTopic := "AI", courses := [sampleCourse] }.toasts
          ++ [fetchErrorToast]
    ∧ (handleDifficultySelection "Hard" QueryResult.err
        { pythonWizardState with searchTopic := "AI", courses := [sampleCourse] }).queries.length
      = { pythonWizardState with searchTopic := "AI", courses := [sampleCourse] }.queries.length
          + 1 :=
  C4_queryFailure
    { pythonWizardState with searchTopic := "AI", courses := [sampleCourse] }
    "Hard" (by decide)

/-- The section updater applied inside `handleSectionComplete`. -/
def sectionUpdate (sectionId : Int) (sec : PythonSection) : PythonSection :=
  if sec.id = sectionId then { sec with isCompleted := true } else sec

/-- `handleSectionComplete` maps `sectionUpdate` over the sections. -/
lemma handleSectionComplete_sections (sectionId : Int) (s : PageState) :
    (handleSectionComplete sectionId s).sections
      = s.sections.map (sectionUpdate sectionId) := rfl

/-- `sectionUpdate` keeps the id. -/
lemma sectionUpdate_id (sectionId : Int) (sec : PythonSection) :
    (sectionUpdate sectionId sec).id = sec.id := by
  unfold sectionUpdate
  split <;> rfl

/-- `sectionUpdate` is idempotent. -/
lemma sectionUpdate_idem (sectionId : Int) (sec : PythonSection) :
    sectionUpdate sectionId (sectionUpdate sectionId sec)
      = sectionUpdate sectionId sec := by
  unfold sectionUpdate
  split <;> rfl

/-- C5 counterexample: `handleSectionComplete 99` on the initial state keeps
the sections but does append a toast — the notification is not silent. -/
theorem C5_counterexample :
    (handleSectionComplete 99 initialState).sections = initialState.sections
    ∧ (handleSectionComplete 99 initialState).toasts ≠ initialState.toasts := by
  constructor
  · decide
  · decide

/-- C5 amended: for an id matching no section, `handleSectionComplete` leaves
the sections list (length, order and every field) unchanged, but still
appends exactly one "Quiz Completed" toast — the toast call sits outside the
per-section update, so the no-op is not silent. -/
theorem C5_amended (s : PageState) (sectionId : Int)
    (h : ∀ sec ∈ s.sections, sec.id ≠ sectionId) :
    (handleSectionComplete sectionId s).sections = s.sections
    ∧ (handleSectionComplete sectionId s).toasts
        = s.toasts ++ [quizCompletedToast] := by
  refine ⟨?_, rfl⟩
  rw [handleSectionComplete_sections]
  have key : ∀ l : List PythonSection, (∀ sec ∈ l, sec.id ≠ sectionId) →
      l.map (sectionUpdate sectionId) = l := by
    intro l hl
    induction l with
    | nil => rfl
    | cons x xs ih =>
      have hx : x.id ≠ sectionId := hl x (List.mem_cons_self x xs)
      have hxs := ih (fun sec hs => hl sec (List.mem_cons_of_mem x hs))
      simp [sectionUpdate, hx, hxs]
  exact key s.sections h

/-- Witness for the amended C5 at id 99 on the initial state. -/
theorem C5_amended_witness :
    (handleSectionComplete 99 initialState).sections = initialState.sections
    ∧ (handleSectionComplete 99 initialState).toasts
        = initialState.toasts ++ [quizCompletedToast] :=
  C5_amended initialState 99 (by decide)

/-- C6: for an id matching an existing section, `handleSectionComplete` sets
that section's flag to true and leaves every other section unchanged
(stated pointwise by `Forall₂`), some section with that id ends up completed,
exactly one "Quiz Completed" toast is appended, and the update is idempotent
on the sections list. -/
theorem C6_sectionComplete (s : PageState) (sectionId : Int)
    (h : ∃ sec ∈ s.sections, sec.id = sectionId) :
    List.Forall₂ (fun old new =>
        (old.id = sectionId → new = { old with isCompleted := true })
        ∧ (old.id ≠ sectionId → new = old))
      s.sections (handleSectionComplete sectionId s).sections
    ∧ (∃ sec ∈ (handleSectionComplete sectionId s).sections,
        sec.id = sectionId ∧ sec.isCompleted = true)
    ∧ (handleSectionComplete sectionId s).toasts
        = s.toasts ++ [quizCompletedToast]
    ∧ (handleSectionComplete sectionId (handleSectionComplete sectionId s)).sections
        = (handleSectionComplete sectionId s).sections := by
  refine ⟨?_, ?_, rfl, ?_⟩
  · rw [handleSectionComplete_sections]
    rw [List.forall₂_map_right_iff]
    rw [List.forall₂_same]
    intro x hx
    constructor
    · intro hid
      simp [sectionUpdate, hid]
    · intro hid
      simp [sectionUpdate, hid]
  · obtain ⟨sec, hmem, hid⟩ := h
    refine ⟨{ sec with isCompleted := true }, ?_, hid, rfl⟩
    rw [handleSectionComplete_sections]
    have : sectionUpdate sectionId sec = { sec with isCompleted := true } := by
      simp [sectionUpdate, hid]
    exact this ▸ List.mem_map_of_mem (sectionUpdate sectionId) hmem
  · rw [handleSectionComplete_sections, handleSectionComplete_sections,
      List.map_map]
    apply List.map_congr_left
    intro x hx
    exact sectionUpdate_idem sectionId x

/-- Witness for C6: completing section 2 of the initial catalog yields a
completed section with id 2. -/
theorem C6_sectionComplete_witness :
    ∃ sec ∈ (handleSectionComplete 2 initialState).sections,
      sec.id = 2 ∧ sec.isCompleted = true :=
  (C6_sectionComplete initialState 2 (by decide)).2.1

/-- `handleSearch` leaves the sections untouched. -/
lemma handleSearch_sections (s : PageState) :
    (handleSearch s).sections = s.sections := by
  unfold handleSearch
  split <;> rfl

/-- `handleDifficultySelection` leaves the sections untouched. -/
lemma diffSelection_sections (d : String) (r : QueryResult) (s : PageState) :
    (handleDifficultySelection d r s).sections = s.sections := by
  cases r with
  | err =>
    simp only [handleDifficultySelection]
    split <;> rfl
  | ok data =>
    simp only [handleDifficultySelection]
    split
    · rfl
    · split <;> rfl

/-- Every action either leaves the sections untouched or maps the
`handleSectionComplete` updater over them. -/
lemma step_sections_eq (a : Action) (s : PageState) :
    (step a s).sections = s.sections
    ∨ ∃ i : Int, (step a s).sections = s.sections.map (sectionUpdate i) := by
  cases a with
  | search => exact Or.inl (handleSearch_sections s)
  | typeClick b => exact Or.inl rfl
  | diffClick d r => exact Or.inl (diffSelection_sections d r s)
  | sectionComplete i => exact Or.inr ⟨i, rfl⟩
  | videoComplete => exact Or.inl rfl
  | quizRetryClick => exact Or.inl rfl
  | quizCloseClick => exact Or.inl rfl
  | videoCloseClick => exact Or.inl rfl
  | videoSelectClick v => exact Or.inl rfl
  | topicInput t => exact Or.inl rfl
  | typeDialogChange b => exact Or.inl rfl
  | diffDialogChange b => exact Or.inl rfl
  | pythonModalChange b => exact Or.inl rfl

/-- Every action preserves the list of section ids. -/
lemma step_sections_map_id (a : Action) (s : PageState) :
    (step a s).sections.map (fun sec => sec.id)
      = s.sections.map (fun sec => sec.id) := by
  rcases step_sections_eq a s with h | ⟨i, h⟩
  · rw [h]
  · rw [h, List.map_map]
    apply List.map_congr_left
    intro x hx
    exact sectionUpdate_id i x

/-- Any run of actions preserves the list of section ids: 1, 2, 3, 4. -/
lemma run_sections_map_id (acts : List Action) :
    (run acts).sections.map (fun sec => sec.id) = [1, 2, 3, 4] := by
  suffices h : ∀ (l : List Action) (s : PageState),
      (l.foldl (fun s a => step a s) s).sections.map (fun sec => sec.id)
        = s.sections.map (fun sec => sec.id) by
    rw [run, h]
    rfl
  intro l
  induction l with
  | nil => intro s; rfl
  | cons a l ih =>
    intro s
    rw [List.foldl_cons, ih, step_sections_map_id]

/-- C7: in every state reachable from page load, the sections carry the ids
1, 2, 3, 4 in catalog order (hence exactly four entries), and any further
action is pointwise monotone on completion flags — no flag ever goes from
true back to false. -/
theorem C7_sections_invariant (acts : List Action) (a : Action) :
    (run acts).sections.map (fun sec => sec.id) = [1, 2, 3, 4]
    ∧ List.Forall₂ (fun old new => old.isCompleted = true → new.isCompleted = true)
        (run acts).sections (step a (run acts)).sections := by
  refine ⟨run_sections_map_id acts, ?_⟩
  rcases step_sections_eq a (run acts) with h | ⟨i, h⟩
  · rw [h]
    exact List.forall₂_same.mpr (fun x hx hc => hc)
  · rw [h, List.forall₂_map_right_iff]
    refine List.forall₂_same.mpr (fun x hx hc => ?_)
    unfold sectionUpdate
    split
    · rfl
    · exact hc

/-- `handleSearch` leaves the difficulty-dialog and Python-modal flags
untouched. -/
lemma handleSearch_flags (s : PageState) :
    (handleSearch s).showDifficultyDialog = s.showDifficultyDialog
    ∧ (handleSearch s).showPythonModal = s.showPythonModal := by
  unfold handleSearch
  split <;> exact ⟨rfl, rfl⟩

/-- `handleDifficultySelection` leaves the type-dialog flag untouched. -/
lemma diffSelection_typeFlag (d : String) (r : QueryResult) (s : PageState) :
    (handleDifficultySelection d r s).showTypeDialog = s.showTypeDialog := by
  cases r with
  | err =>
    simp only [handleDifficultySelection]
    split <;> rfl
  | ok data =>
    simp only [handleDifficultySelection]
    split
    · rfl
    · split <;> rfl

/-- The part of dialog exclusivity that does hold: the type dialog is never
open together with the difficulty dialog or with the curriculum modal. -/
def typeDialogExclusive (s : PageState) : Prop :=
  ¬(s.showTypeDialog = true ∧ s.showDifficultyDialog = true)
  ∧ ¬(s.showTypeDialog = true ∧ s.showPythonModal = true)

/-- The wizard trace "python" search → free tier → "Beginner": it takes the
diversion branch of `handleDifficultySelection`. -/
def divergedTrace : PageState :=
  handleDifficultySelection "Beginner" QueryResult.err
    (handleTypeSelection true (handleSearch (setSearchTopic "python" initialState)))

/-- C8 counterexample: the diversion state is reachable by wizard user
actions yet has both the difficulty dialog and the curriculum modal open —
the diversion branch returns without closing the difficulty dialog. -/
theorem C8_counterexample :
    WizardReachable divergedTrace
    ∧ divergedTrace.showDifficultyDialog = true
    ∧ divergedTrace.showPythonModal = true := by
  refine ⟨?_, by decide, by decide⟩
  exact WizardReachable.diffClick _ "Beginner" QueryResult.err
    (WizardReachable.typeClick _ true
      (WizardReachable.search _
        (WizardReachable.topic _ "python" WizardReachable.init (by decide))
        (by decide))
      (by decide))
    (by decide)

/-- C8 amended: in every wizard-reachable state the type dialog is exclusive
with the other two dialogs, but the diversion branch opens the curriculum
modal while leaving the difficulty-dialog flag unchanged (still open), so
after the diversion two dialogs are open. -/
theorem C8_amended :
    (∀ s : PageState, WizardReachable s → typeDialogExclusive s)
    ∧ ∀ (s : PageState) (r : QueryResult), jsToLower s.searchTopic = "python" →
        (handleDifficultySelection "Beginner" r s).showPythonModal = true
        ∧ (handleDifficultySelection "Beginner" r s).showDifficultyDialog
            = s.showDifficultyDialog := by
  constructor
  · intro s h
    induction h with
    | init => exact ⟨fun hc => Bool.false_ne_true hc.1, fun hc => Bool.false_ne_true hc.1⟩
    | topic s t hr hnd ih => exact ih
    | search s hr hnd ih =>
      obtain ⟨h1, h2, h3⟩ := hnd
      refine ⟨fun hc => ?_, fun hc => ?_⟩
      · have hD := hc.2
        rw [(handleSearch_flags s).1, h2] at hD
        exact Bool.false_ne_true hD
      · have hP := hc.2
        rw [(handleSearch_flags s).2, h3] at hP
        exact Bool.false_ne_true hP
    | typeClick s b hr ht ih =>
      exact ⟨fun hc => Bool.false_ne_true hc.1, fun hc => Bool.false_ne_true hc.1⟩
    | diffClick s d r hr hd ih =>
      refine ⟨fun hc => ?_, fun hc => ?_⟩
      all_goals
        have hT := hc.1
        rw [diffSelection_typeFlag] at hT
        exact ih.1 ⟨hT, hd⟩
  · intro s r htopic
    unfold handleDifficultySelection
    rw [if_pos ⟨htopic, rfl⟩]
    exact ⟨rfl, rfl⟩

/-- Witness for the amended C8 at the initial state and the concrete
"PyThOn" wizard state. -/
theorem C8_amended_witness :
    typeDialogExclusive initialState
    ∧ (handleDifficultySelection "Beginner" QueryResult.err pythonWizardState).showPythonModal
        = true
    ∧ (handleDifficultySelection "Beginner" QueryResult.err pythonWizardState).showDifficultyDialog
        = pythonWizardState.showDifficultyDialog :=
  ⟨C8_amended.1 initialState WizardReachable.init,
   (C8_amended.2 pythonWizardState QueryResult.err (by decide)).1,
   (C8_amended.2 pythonWizardState QueryResult.err (by decide)).2⟩

end Course
